import Mathlib

/-!
Verification of the menu subsystem in `src/menu.rs` of `bevy_game_template`.

The Rust code is a bevy plugin built around `bevy_quickmenu`: a configuration
record `GameCfg`, a screen enumeration `Screens` with a pure `resolve` function
producing menu entries, an action enumeration `Actions` with a `handle` function
mutating the configuration and emitting events, and two systems: `menu` (runs on
entering/exiting `GameState::Game`, sets the window title and installs a fresh
`MenuState`) and `handle_events` (drains the `Actions` event stream once per tick,
copies the menu-local configuration snapshot back into the shared resource when
events are pending, and requests host state transitions or application exit).

Conditional compilation on `target_arch = "wasm32"` (which removes the `Quit`
action and the `AppExit` writer) is embedded as an explicit `wasm : Bool`
parameter: arms and items guarded by `#[cfg(not(target_arch = "wasm32"))]` are
present exactly when `wasm = false`.
-/

/-- Modelled from the spec: the host state enumeration `GameState` is declared in
the crate root, which is not part of the provided sources; the spec gives its
states as exactly Menu and Game. -/
inductive GameState where
  | Menu
  | Game
deriving DecidableEq, Repr

/-- Screen enumeration from `src/menu.rs` (`enum Screens`). -/
inductive Screens where
  | Game
  | Pause
  | NewGame
  | GameOver
  | Num
deriving DecidableEq, Repr

/-- Action enumeration from `src/menu.rs` (`enum Actions`). The `Quit`
constructor exists only in non-wasm builds in the source; availability is
tracked by `Actions.compiledFor`. The `SetNum` payload is a `u8` in the source;
it is embedded as `Nat` (no arithmetic is ever performed on it, so overflow
cannot arise). -/
inductive Actions where
  | Resume
  | Pause
  | Quit
  | NewGame
  | SetBoolean
  | SetNum (x : Nat)
deriving DecidableEq, Repr

/-- Which actions exist in a given build: `Quit` carries
`#[cfg(not(target_arch = "wasm32"))]`, so it is compiled only when
`wasm = false`; every other constructor is unconditional. -/
def Actions.compiledFor (wasm : Bool) : Actions → Bool
  | .Quit => !wasm
  | _ => true

/-- Configuration resource from `src/menu.rs` (`struct GameCfg`). -/
structure GameCfg where
  boolean : Bool
  new_game : Bool
  outcome : Option Bool
  num : Nat
deriving DecidableEq, Repr

/-- `impl Default for GameCfg`. -/
def GameCfg.default : GameCfg :=
  { boolean := true, new_game := false, outcome := none, num := 3 }

/-- `Actions::handle` from `impl ActionTrait for Actions`: mutates the
configuration and writes events via the `EventWriter`. Embedded as a function
returning the new configuration together with the list of events sent (in
order). Each arm mirrors one match arm of the source. -/
def Actions.handle (self : Actions) (state : GameCfg) : GameCfg × List Actions :=
  match self with
  | .Pause | .Resume => (state, [self])
  | .Quit => (state, [self])
  | .NewGame => ({ state with new_game := true }, [self])
  | .SetBoolean => ({ state with boolean := state.boolean ^^ true }, [])
  | .SetNum x => ({ state with num := x }, [])

/-- Menu items as produced by `bevy_quickmenu`'s `MenuItem` constructors used in
this file: `headline`, `label`, `action` (with its `checked` flag, `false`
unless set by `.checked(..)`), and `screen`. -/
inductive MenuItem where
  | headline (text : String)
  | label (text : String)
  | action (text : String) (act : Actions) (checked : Bool)
  | screen (text : String) (target : Screens)
deriving DecidableEq, Repr

/-- A resolved menu: title (the `Debug` rendering of the screen tag in the
source) and the ordered item list. -/
structure Menu where
  title : String
  items : List MenuItem
deriving DecidableEq, Repr

/-- Debug names of the screen tags, as produced by `format!` on the derived
`Debug` instance. -/
def Screens.name : Screens → String
  | .Game => "Game"
  | .Pause => "Pause"
  | .NewGame => "NewGame"
  | .GameOver => "GameOver"
  | .Num => "Num"

/-- `Screens::resolve` from `impl ScreenTrait for Screens`. Items guarded by
`#[cfg(not(target_arch = "wasm32"))]` appear exactly when `wasm = false`. The
`Num` arm mirrors `chain((3..6).map(..))` via `List.range' 3 3 = [3, 4, 5]`. -/
def Screens.resolve (wasm : Bool) (self : Screens) (state : GameCfg) : Menu :=
  let num_actions := fun (n : Nat) =>
    MenuItem.action (toString n) (.SetNum n) (state.num == n)
  { title := self.name
    items :=
      match self with
      | .Pause =>
          [MenuItem.headline ("Paused"),
           MenuItem.action ("Resume") .Resume false,
           MenuItem.screen ("New Game") .NewGame] ++
          (if wasm then [] else [MenuItem.action ("Quit") .Quit false])
      | .Game => [MenuItem.action ("Pause") .Pause false]
      | .GameOver =>
          [MenuItem.headline ("Game Over"),
           MenuItem.screen ("New Game") .NewGame] ++
          (if wasm then [] else [MenuItem.action ("Quit") .Quit false])
      | .NewGame =>
          [MenuItem.headline ("YourGame"),
           MenuItem.action ("Start a New Game") .NewGame false,
           MenuItem.label ("Configuration"),
           MenuItem.action ("Boolean") .SetBoolean state.boolean,
           MenuItem.screen ("Num") .Num]
      | .Num => [MenuItem.headline ("Num")] ++ (List.range' 3 3).map num_actions }

/-- The action entries of a resolved menu, in order, each with its checked
flag; headline, label and screen items carry no action and are skipped. -/
def Menu.actionEntries (m : Menu) : List (Actions × Bool) :=
  m.items.filterMap fun i =>
    match i with
    | .action _ a c => some (a, c)
    | _ => none

/-- The primary window: the only field this component touches is `title`. -/
structure Window where
  title : String
deriving DecidableEq, Repr

/-- `PositionType` of the style sheet built in `menu`: `Absolute` in the
`GameState::Game` branch, `default()` (= `Relative`) otherwise. -/
inductive PositionType where
  | Absolute
  | Relative
deriving DecidableEq, Repr

/-- `bevy_quickmenu::MenuState`, restricted to the data this component reads
back: the configuration snapshot (`menu_state.state()`) and the screen it was
created on. The style sheet's constant parts (black background) are omitted. -/
structure MenuState where
  state : GameCfg
  screen : Screens
deriving DecidableEq, Repr

/-- Output of one run of the `menu` system: the primary window after the title
write, the freshly inserted `MenuState`, and the position type put into the
style sheet. -/
structure MenuOut where
  window : Window
  menuState : MenuState
  positionType : PositionType
deriving DecidableEq, Repr

/-- `Query::get_single_mut`: succeeds exactly when the query matched exactly
one entity. -/
def get_single_mut {α : Type} : List α → Option α
  | [w] => some w
  | _ => none

/-- The `menu` system from `src/menu.rs`. The `.unwrap()` on the primary-window
lookup is the `Option.map` over `get_single_mut`: a `none` result models the
process abort. The branch on `state.0 == GameState::Game` chooses title,
screen and position type; the window title is overwritten and a fresh
`MenuState` holding a copy of the configuration is inserted. -/
def menu (windows : List Window) (cfg : GameCfg) (state : GameState) : Option MenuOut :=
  (get_single_mut windows).map fun w =>
    let tsp :=
      if state = GameState.Game then
        (("YourGame" : String), Screens.Game, PositionType.Absolute)
      else if cfg.outcome.isSome then
        (("YourGame - GameOver" : String), Screens.GameOver, PositionType.Relative)
      else
        (("YourGame - Paused" : String), Screens.Pause, PositionType.Relative)
    { window := { w with title := tsp.1 }
      menuState := { state := cfg, screen := tsp.2.1 }
      positionType := tsp.2.2 }

/-- Per-event state-transition request of the `for event in action_event.iter()`
loop in `handle_events`: `Resume`/`NewGame` request `GameState::Game`, `Pause`
requests `GameState::Menu`, everything else falls to the wildcard arm. -/
def eventNext : Actions → Option GameState
  | .Resume | .NewGame => some .Game
  | .Pause => some .Menu
  | _ => none

/-- Per-event `AppExit` emissions of the loop in `handle_events`. In a wasm
build the `Quit` arm (and the `AppExit` writer itself) is compiled out, so the
event falls to the wildcard arm and nothing is emitted. -/
def eventExitCount (wasm : Bool) : Actions → Nat
  | .Quit => if wasm then 0 else 1
  | _ => 0

/-- Result of one run of the `handle_events` system: the configuration written
back into the shared resource (if any), the `NextState` requests in order, and
the number of `AppExit` events sent. -/
structure HandleEventsOut where
  cfgWritten : Option GameCfg
  nextStates : List GameState
  exits : Nat
deriving DecidableEq, Repr

/-- The `handle_events` system from `src/menu.rs`: if the `MenuState` resource
exists and the event queue is non-empty, the menu-local configuration snapshot
is copied back into the shared `GameCfg` resource; then each event is matched
to a `NextState` insertion or an `AppExit` emission. -/
def handle_events (wasm : Bool) (action_event : List Actions)
    (menu_state : Option MenuState) : HandleEventsOut :=
  { cfgWritten :=
      match menu_state with
      | some ms => if action_event.isEmpty then none else some ms.state
      | none => none
    nextStates := action_event.filterMap eventNext
    exits := (action_event.map (eventExitCount wasm)).sum }

/-- The num-field invariant stated by the spec's data model: `num ∈ {3, 4, 5}`. -/
def numInvariant (cfg : GameCfg) : Prop :=
  cfg.num = 3 ∨ cfg.num = 4 ∨ cfg.num = 5

/-- An action is num-safe when any `SetNum` payload it carries lies in
`{3, 4, 5}`; every action the menu screens actually offer is num-safe. -/
def Actions.numOk : Actions → Prop
  | .SetNum n => n = 3 ∨ n = 4 ∨ n = 5
  | _ => True

/-- Claim C1: for every configuration, handling `Resume` and handling `NewGame`
each emit the event that makes `handle_events` request a transition to
`GameState::Game`; `NewGame` additionally sets `new_game := true`, while
`Resume` leaves the configuration unchanged. -/
theorem resume_newGame_request_game (cfg : GameCfg) (wasm : Bool)
    (ms : Option MenuState) :
    Actions.handle .Resume cfg = (cfg, [.Resume])
    ∧ Actions.handle .NewGame cfg = ({ cfg with new_game := true }, [.NewGame])
    ∧ (handle_events wasm [.Resume] ms).nextStates = [.Game]
    ∧ (handle_events wasm [.NewGame] ms).nextStates = [.Game] :=
  ⟨rfl, rfl, rfl, rfl⟩

/-- Claim C6: for every configuration, handling `Pause` leaves the
configuration unchanged (in particular `boolean` and `num`), and processing the
emitted `Pause` event requests a transition to `GameState::Menu`. -/
theorem pause_requests_menu (cfg : GameCfg) (wasm : Bool)
    (ms : Option MenuState) :
    Actions.handle .Pause cfg = (cfg, [.Pause])
    ∧ (Actions.handle .Pause cfg).1.boolean = cfg.boolean
    ∧ (Actions.handle .Pause cfg).1.num = cfg.num
    ∧ (handle_events wasm [.Pause] ms).nextStates = [.Menu] :=
  ⟨rfl, rfl, rfl, rfl⟩

/-- Claim C7: one `SetBoolean` handling flips `boolean`; two in succession
return it to its original value. -/
theorem setBoolean_involutive (cfg : GameCfg) :
    (Actions.handle .SetBoolean cfg).1.boolean = !cfg.boolean
    ∧ (Actions.handle .SetBoolean
        (Actions.handle .SetBoolean cfg).1).1.boolean = cfg.boolean := by
  cases h : cfg.boolean <;> simp [Actions.handle, h]

/-- Claim C10: handling `SetBoolean` or `SetNum` writes no event to the action
event stream, while `Resume`, `Pause`, `Quit` and `NewGame` each write exactly
one event, a copy of the action itself. -/
theorem event_emission (cfg : GameCfg) :
    (Actions.handle .SetBoolean cfg).2 = []
    ∧ (∀ n : Nat, (Actions.handle (.SetNum n) cfg).2 = [])
    ∧ (Actions.handle .Resume cfg).2 = [.Resume]
    ∧ (Actions.handle .Pause cfg).2 = [.Pause]
    ∧ (Actions.handle .Quit cfg).2 = [.Quit]
    ∧ (Actions.handle .NewGame cfg).2 = [.NewGame] :=
  ⟨rfl, fun _ => rfl, rfl, rfl, rfl, rfl⟩

/-- Claim C2: for every configuration, the `Num` sub-screen's action entries
are exactly `SetNum 3`, `SetNum 4`, `SetNum 5` in that order, and an entry is
checked exactly when its value equals the configuration's `num` field. -/
theorem num_screen_entries (wasm : Bool) (cfg : GameCfg) :
    ((Screens.Num.resolve wasm cfg).actionEntries.map Prod.fst
      = [.SetNum 3, .SetNum 4, .SetNum 5])
    ∧ ∀ n b, (Actions.SetNum n, b) ∈ (Screens.Num.resolve wasm cfg).actionEntries →
        (b = true ↔ cfg.num = n) := by
  constructor
  · rfl
  · intro n b hmem
    simp [Screens.resolve, Menu.actionEntries, List.range'] at hmem
    rcases hmem with ⟨h1, h2⟩ | ⟨h1, h2⟩ | ⟨h1, h2⟩ <;> subst h1 <;> subst h2 <;>
      simp [Nat.beq_eq_true_eq]

/-- Concrete instantiation of `num_screen_entries`: in the default
configuration (`num = 3`) the `SetNum 3` entry is checked. -/
theorem num_screen_entries_witness : (true = true ↔ GameCfg.default.num = 3) :=
  (num_screen_entries false GameCfg.default).2 3 true (by decide)

/-- Claim C4: the menu-local configuration snapshot is copied back into the
shared resource exactly when at least one action event is pending and a
`MenuState` snapshot exists, and what is written is that snapshot's
configuration. -/
theorem copy_back_iff (wasm : Bool) (evs : List Actions) (ms : Option MenuState) :
    ((handle_events wasm evs ms).cfgWritten.isSome = true ↔ evs ≠ [] ∧ ms.isSome = true)
    ∧ ∀ m, ms = some m → evs ≠ [] →
        (handle_events wasm evs ms).cfgWritten = some m.state := by
  cases ms <;> cases evs <;> simp [handle_events]

/-- Concrete instantiation of `copy_back_iff`: one pending `Pause` event and a
live snapshot make the snapshot's configuration be written back. -/
theorem copy_back_iff_witness :
    (handle_events false [Actions.Pause]
        (some ⟨GameCfg.default, Screens.Pause⟩)).cfgWritten = some GameCfg.default :=
  (copy_back_iff false [Actions.Pause] (some ⟨GameCfg.default, Screens.Pause⟩)).2
    ⟨GameCfg.default, Screens.Pause⟩ rfl (by decide)

/-- Claim C5: with the single primary window present, the `menu` system in
`GameState::Game` sets the playing title and `Game` screen regardless of
`outcome`; in `GameState::Menu` (i.e. after exiting `Game`) it sets the
game-over title and `GameOver` screen when `outcome` is `some _`, and the
paused title and `Pause` screen when `outcome` is `none`. -/
theorem lifecycle_titles (w : Window) (cfg : GameCfg) :
    menu [w] cfg .Game = some ⟨⟨"YourGame"⟩, ⟨cfg, .Game⟩, .Absolute⟩
    ∧ (cfg.outcome.isSome = true →
        menu [w] cfg .Menu
          = some ⟨⟨"YourGame - GameOver"⟩, ⟨cfg, .GameOver⟩, .Relative⟩)
    ∧ (cfg.outcome = none →
        menu [w] cfg .Menu
          = some ⟨⟨"YourGame - Paused"⟩, ⟨cfg, .Pause⟩, .Relative⟩) := by
  refine ⟨rfl, ?_, ?_⟩
  · intro h
    simp [menu, get_single_mut, h]
  · intro h
    simp [menu, get_single_mut, h]

/-- Concrete instantiation of `lifecycle_titles`: on exiting `Game` the title
is the game-over one when an outcome is recorded and the paused one when not. -/
theorem lifecycle_titles_witness :
    menu [Window.mk ("w")] { GameCfg.default with outcome := some true } .Menu
      = some ⟨⟨"YourGame - GameOver"⟩,
              ⟨{ GameCfg.default with outcome := some true }, .GameOver⟩, .Relative⟩
    ∧ menu [Window.mk ("w")] GameCfg.default .Menu
      = some ⟨⟨"YourGame - Paused"⟩, ⟨GameCfg.default, .Pause⟩, .Relative⟩ :=
  ⟨(lifecycle_titles (Window.mk ("w")) { GameCfg.default with outcome := some true }).2.1 rfl,
   (lifecycle_titles (Window.mk ("w")) GameCfg.default).2.2 rfl⟩

/-- Claim C9: the `menu` system aborts exactly when the primary-window query
does not match exactly one window; under the precondition of a single primary
window it always succeeds. Every other operation of the component
(`Actions.handle`, `Screens.resolve`, `handle_events`) is embedded as a total
function: the window lookup is the only partial step. -/
theorem window_lookup_only_failure (ws : List Window) (cfg : GameCfg) (st : GameState) :
    (∃ out, menu ws cfg st = some out) ↔ ws.length = 1 := by
  match ws with
  | [] => simp [menu, get_single_mut]
  | [w] => simp [menu, get_single_mut]
  | w1 :: w2 :: t => simp [menu, get_single_mut]

/-- In a wasm build the `AppExit` writer and the `Quit` match arm are compiled
out, so no run of `handle_events` emits an exit. -/
theorem sum_exitCount_wasm (evs : List Actions) :
    (evs.map (eventExitCount true)).sum = 0 := by
  induction evs with
  | nil => rfl
  | cons e t ih => cases e <;> simp [eventExitCount, ih]

/-- In a non-wasm build the exits emitted by `handle_events` are exactly one
per `Quit` event in the drained queue. -/
theorem sum_exitCount_count (evs : List Actions) :
    (evs.map (eventExitCount false)).sum = evs.count .Quit := by
  induction evs with
  | nil => rfl
  | cons e t ih => cases e <;> simp [eventExitCount, List.count_cons, ih, Nat.add_comm]

/-- Claim C8: under the wasm32 build the `Quit` action is not compiled and no
run of `handle_events` can emit an application-exit request; under any other
build each `Quit` event processed in the per-tick pass causes exactly one
application-exit request. -/
theorem quit_wasm_compiled_out :
    Actions.compiledFor true .Quit = false
    ∧ (∀ (evs : List Actions) (ms : Option MenuState),
        (handle_events true evs ms).exits = 0)
    ∧ (∀ (evs : List Actions) (ms : Option MenuState),
        (handle_events false evs ms).exits = evs.count .Quit) :=
  ⟨rfl, fun evs _ => sum_exitCount_wasm evs, fun evs _ => sum_exitCount_count evs⟩

/-- Claim C3, counterexample: the num-field invariant is not preserved by
handling arbitrary actions, since `SetNum` carries an unrestricted `u8`
payload: handling `SetNum 0` from the default configuration leaves `num = 0`. -/
theorem num_invariant_counterexample :
    numInvariant GameCfg.default
    ∧ ¬ numInvariant (Actions.handle (.SetNum 0) GameCfg.default).1 := by
  unfold numInvariant
  decide

/-- Claim C3, amended: `num ∈ {3, 4, 5}` holds in the default configuration
and is preserved by handling any action whose `SetNum` payload lies in
`{3, 4, 5}` — which includes every action offered by any menu screen;
`SetNum n` sets `num` to exactly `n` for `n ∈ {3, 4, 5}`. -/
theorem num_invariant_amended :
    numInvariant GameCfg.default
    ∧ (∀ (a : Actions) (cfg : GameCfg),
        a.numOk → numInvariant cfg → numInvariant (a.handle cfg).1)
    ∧ (∀ (n : Nat) (cfg : GameCfg),
        n = 3 ∨ n = 4 ∨ n = 5 → ((Actions.SetNum n).handle cfg).1.num = n)
    ∧ (∀ (wasm : Bool) (s : Screens) (cfg : GameCfg) (a : Actions) (c : Bool),
        (a, c) ∈ (s.resolve wasm cfg).actionEntries → a.numOk) := by
  refine ⟨Or.inl rfl, ?_, fun n cfg _ => rfl, ?_⟩
  · intro a cfg hok hinv
    cases a
    case SetNum n => exact hok
    all_goals exact hinv
  · intro wasm s cfg a c hmem
    cases a
    case SetNum n =>
      cases s <;> cases wasm <;>
        simp [Screens.resolve, Menu.actionEntries, List.range'] at hmem <;> tauto
    all_goals trivial

/-- Concrete instantiation of `num_invariant_amended`: handling `SetNum 4`
from the default configuration keeps the invariant, `SetNum 5` sets `num` to
5, and the `Resume` entry offered by the `Pause` screen is num-safe. -/
theorem num_invariant_amended_witness :
    numInvariant ((Actions.SetNum 4).handle GameCfg.default).1
    ∧ ((Actions.SetNum 5).handle GameCfg.default).1.num = 5
    ∧ Actions.numOk .Resume :=
  ⟨num_invariant_amended.2.1 (Actions.SetNum 4) GameCfg.default
      (Or.inr (Or.inl rfl)) (Or.inl rfl),
   num_invariant_amended.2.2.1 5 GameCfg.default (Or.inr (Or.inr rfl)),
   num_invariant_amended.2.2.2 false Screens.Pause GameCfg.default
      .Resume false (by decide)⟩
